import Mathlib

/-!
Verification of the WebRTC streaming-session core of the arm-watch-and-lead
repository, shallowly embedded from the TypeScript source:
  src/services/webrtc.ts            (class WebRTCStreamer)
  src/services/webrtc-receiver.ts   (class WebRTCReceiver)
  components/VideoStream (focus-adaptation effect).

Embedding conventions:
  - The constructor-immutable fields robotId and operatorId are passed as
    explicit parameters (rid, oid) instead of being stored in the state record.
  - Async methods are modelled as pure state transformers, each returning the
    new state together with a list of externally observable actions (Event);
    a method that can reject returns Except String.  An Except.error result
    models a thrown error, which in JS leaves the object's fields as they were
    at the throw point.
  - Date.now() is modelled by an explicit (now : Nat) parameter per call site.
  - Only console.error calls are modelled (as Event.logged); plain
    console.log/console.warn informational output is not an observable effect.
  - Host-platform (browser) objects RTCPeerConnection, MediaStream and
    RTCDataChannel are modelled with just the structure the source consults:
    signaling state, descriptions, applied candidates and sender tracks.
    getUserMedia is modelled by a MediaEnv of device-availability flags:
    the combined video+audio request succeeds iff both are available,
    the video-only fallback iff video is available.
-/

/-- Quality levels, from QUALITY_PRESETS keys low | medium | high. -/
inductive QualityLevel
  | low
  | medium
  | high
deriving DecidableEq, Repr

/-- interface WebRTCQualitySettings. -/
structure WebRTCQualitySettings where
  width : Nat
  height : Nat
  frameRate : Nat
  bitrate : Nat
deriving DecidableEq, Repr

/-- QUALITY_PRESETS from webrtc.ts. -/
def QUALITY_PRESETS : QualityLevel → WebRTCQualitySettings
  | .low => { width := 320, height := 240, frameRate := 15, bitrate := 200000 }
  | .medium => { width := 640, height := 480, frameRate := 24, bitrate := 500000 }
  | .high => { width := 1280, height := 720, frameRate := 30, bitrate := 1500000 }

/-- SDP blobs are opaque payloads. -/
abbrev Sdp := String

/-- ICE candidate descriptors are opaque payloads. -/
abbrev IceCandidate := String

/-- The message.type strings used through the localStorage signaling relay. -/
inductive MsgType
  | offer
  | answer
  | iceCandidate
  | qualityRequest
  | connectionRequest
deriving DecidableEq, Repr

/-- A record stored in the localStorage relay list: the union of the fields the
two classes write (type, offer/answer sdp, candidate, quality, robotId,
senderId, receiverId, timestamp) plus the relay-side processed flag. -/
structure SigMessage where
  type : MsgType
  sdp : Option Sdp := none
  candidate : Option IceCandidate := none
  quality : Option QualityLevel := none
  robotId : String
  senderId : Option String := none
  receiverId : Option String := none
  timestamp : Nat
  processed : Bool := false
deriving DecidableEq, Repr

/-- The receiver's deduplication key, the model of the template string
type-timestamp-senderId built in startListeningForSignaling. -/
def msgIdOf (m : SigMessage) : MsgType × Nat × Option String :=
  (m.type, m.timestamp, m.senderId)

/-- RTCSignalingState values the source consults. -/
inductive SignalingState
  | stable
  | haveLocalOffer
  | haveRemoteOffer
deriving DecidableEq, Repr

/-- Model of a browser RTCPeerConnection handle, restricted to what the source
reads and writes.  pcId identifies the handle so that closing and re-creating
can be observed.  videoSenderTrack / audioSenderTrack record the quality level
of the track currently attached to the corresponding RTCRtpSender (none when
there is no such sender). -/
structure RTCPeerConnection where
  pcId : Nat := 0
  signalingState : SignalingState := .stable
  remoteDescription : Option Sdp := none
  localDescription : Option Sdp := none
  appliedCandidates : List IceCandidate := []
  videoSenderTrack : Option QualityLevel := none
  audioSenderTrack : Option QualityLevel := none
deriving DecidableEq, Repr

/-- new RTCPeerConnection(...) with a fresh handle identity. -/
def newPeerConnection (n : Nat) : RTCPeerConnection := { pcId := n }

/-- setRemoteDescription with an offer: browsers accept it from stable or
have-remote-offer and reject it (InvalidStateError) from have-local-offer. -/
def RTCPeerConnection.setRemoteOffer (pc : RTCPeerConnection) (sdp : Sdp) :
    Except String RTCPeerConnection :=
  match pc.signalingState with
  | .haveLocalOffer => .error "InvalidStateError"
  | _ => .ok { pc with signalingState := .haveRemoteOffer, remoteDescription := some sdp }

/-- setRemoteDescription with an answer: accepted only from have-local-offer. -/
def RTCPeerConnection.setRemoteAnswer (pc : RTCPeerConnection) (sdp : Sdp) :
    Except String RTCPeerConnection :=
  match pc.signalingState with
  | .haveLocalOffer => .ok { pc with signalingState := .stable, remoteDescription := some sdp }
  | _ => .error "InvalidStateError"

/-- addIceCandidate: appends to the applied-candidate list. -/
def RTCPeerConnection.addIceCandidate (pc : RTCPeerConnection) (c : IceCandidate) :
    RTCPeerConnection :=
  { pc with appliedCandidates := pc.appliedCandidates ++ [c] }

/-- The for-loop in handleOffer applying the buffered candidates in order. -/
def drainPending (pc : RTCPeerConnection) (cs : List IceCandidate) : RTCPeerConnection :=
  cs.foldl RTCPeerConnection.addIceCandidate pc

/-- Model of an RTCDataChannel handle: only its readyState is consulted. -/
structure DataChannel where
  isOpen : Bool
deriving DecidableEq, Repr

/-- Model of a capture MediaStream: the quality it was acquired at and whether
it carries an audio track (it always carries a video track). -/
structure MediaStream where
  quality : QualityLevel
  hasAudioTrack : Bool
deriving DecidableEq, Repr

/-- Device environment for getUserMedia and RTCRtpSender.replaceTrack:
whether a video device is available, whether an audio device is available,
and whether replaceTrack calls succeed. -/
structure MediaEnv where
  videoOk : Bool
  audioOk : Bool
  replaceOk : Bool := true
deriving DecidableEq, Repr

/-- Externally observable actions of a session method. -/
inductive Event
  | pollingStopped
  | tracksStopped (ms : MediaStream)
  | dataChannelClosed
  | peerConnectionClosed (id : Nat)
  | published (m : SigMessage)
  | dataChannelSent (q : QualityLevel)
  | audioStatusChanged (b : Bool)
  | qualityChangedNotified (q : QualityLevel)
  | logged (s : String)
deriving DecidableEq, Repr

/-- Release actions: stopping capture tracks, closing the data channel,
closing the peer connection. -/
def Event.isRelease : Event → Bool
  | .tracksStopped _ => true
  | .dataChannelClosed => true
  | .peerConnectionClosed _ => true
  | _ => false

/-- Number of tracksStopped actions in an event list. -/
def countTracksStopped (evs : List Event) : Nat :=
  (evs.filter fun e => match e with | .tracksStopped _ => true | _ => false).length

/-- Number of dataChannelClosed actions in an event list. -/
def countDcClosed (evs : List Event) : Nat :=
  (evs.filter fun e => match e with | .dataChannelClosed => true | _ => false).length

/-- Number of peerConnectionClosed actions in an event list. -/
def countPcClosed (evs : List Event) : Nat :=
  (evs.filter fun e => match e with | .peerConnectionClosed _ => true | _ => false).length

/-- The quality levels of the quality-request envelopes published in an event
list, in order. -/
def qualityRequestsOf (evs : List Event) : List QualityLevel :=
  evs.filterMap fun e =>
    match e with
    | .published m => if m.type = .qualityRequest then m.quality else none
    | _ => none

/-! ### WebRTCStreamer (webrtc.ts) -/

/-- Mutable fields of class WebRTCStreamer.  robotId is constructor-immutable
and passed as a parameter where needed.  signalingInterval is true once
startListeningForSignaling has stored the poll-interval handle; the source
never clears this field (cleanup calls clearInterval but keeps the handle). -/
structure WebRTCStreamer where
  peerConnection : Option RTCPeerConnection := none
  localStream : Option MediaStream := none
  dataChannel : Option DataChannel := none
  currentQuality : QualityLevel := .low
  hasAudio : Bool := false
  signalingInterval : Bool := false
deriving DecidableEq, Repr

/-- A freshly constructed WebRTCStreamer. -/
def streamerNew : WebRTCStreamer := {}

/-- getMediaStream: try getUserMedia(video+audio); on failure fall back to
getUserMedia(video only); on failure throw. -/
def getMediaStream (env : MediaEnv) (quality : QualityLevel) : Except String MediaStream :=
  if env.videoOk && env.audioOk then
    .ok { quality := quality, hasAudioTrack := true }
  else if env.videoOk then
    .ok { quality := quality, hasAudioTrack := false }
  else
    .error "Camera access denied or not available"

/-- WebRTCStreamer.initialize: acquire capture at the current quality, record
hasAudio (notifying the observer), create the peer connection, add the
capture tracks to it, and create the quality-control data channel.
A capture failure is rethrown. -/
def initializeStreamer (env : MediaEnv) (s : WebRTCStreamer) :
    Except String (WebRTCStreamer × List Event) :=
  match getMediaStream env s.currentQuality with
  | .error e => .error e
  | .ok ms =>
    let pc : RTCPeerConnection :=
      { newPeerConnection 0 with
          videoSenderTrack := some ms.quality,
          audioSenderTrack := if ms.hasAudioTrack then some ms.quality else none }
    .ok ({ s with
            localStream := some ms,
            hasAudio := ms.hasAudioTrack,
            peerConnection := some pc,
            dataChannel := some { isOpen := false } },
         [Event.audioStatusChanged ms.hasAudioTrack])

/-- WebRTCStreamer.startListeningForSignaling stores the poll-interval
handle. -/
def startListeningStreamer (s : WebRTCStreamer) : WebRTCStreamer :=
  { s with signalingInterval := true }

/-- WebRTCStreamer.createOffer: requires the peer connection, creates an
offer, sets it as local description and publishes it (robotId only, no
senderId). -/
def createOffer (rid : String) (now : Nat) (s : WebRTCStreamer) :
    Except String (WebRTCStreamer × Sdp × List Event) :=
  match s.peerConnection with
  | none => .error "Peer connection not initialized"
  | some pc =>
    let offer : Sdp := "offer"
    let pc1 : RTCPeerConnection :=
      { pc with signalingState := .haveLocalOffer, localDescription := some offer }
    .ok ({ s with peerConnection := some pc1 },
         offer,
         [Event.published { type := .offer, sdp := some offer, robotId := rid, timestamp := now }])

/-- WebRTCStreamer.handleAnswer: requires the peer connection and applies the
answer as remote description (no try/catch: a rejection propagates). -/
def handleAnswer (s : WebRTCStreamer) (answer : Sdp) :
    Except String (WebRTCStreamer × List Event) :=
  match s.peerConnection with
  | none => .error "Peer connection not initialized"
  | some pc =>
    match pc.setRemoteAnswer answer with
    | .error e => .error e
    | .ok pc1 => .ok ({ s with peerConnection := some pc1 }, [])

/-- WebRTCStreamer.handleIceCandidate: requires the peer connection and
applies the candidate immediately — the streamer has no pending buffer. -/
def WebRTCStreamer.handleIceCandidate (s : WebRTCStreamer) (c : IceCandidate) :
    Except String (WebRTCStreamer × List Event) :=
  match s.peerConnection with
  | none => .error "Peer connection not initialized"
  | some pc => .ok ({ s with peerConnection := some (pc.addIceCandidate c) }, [])

/-- videoSender.replaceTrack(videoTrack). -/
def replaceVideoTrack (env : MediaEnv) (pc : RTCPeerConnection) (q : QualityLevel) :
    Except String RTCPeerConnection :=
  if env.replaceOk then .ok { pc with videoSenderTrack := some q }
  else .error "replaceTrack failed"

/-- audioSender.replaceTrack(audioTrack). -/
def replaceAudioTrack (env : MediaEnv) (pc : RTCPeerConnection) (q : QualityLevel) :
    Except String RTCPeerConnection :=
  if env.replaceOk then .ok { pc with audioSenderTrack := some q }
  else .error "replaceTrack failed"

/-- The try-block of WebRTCStreamer.changeQuality.  An error result carries
the fields as mutated up to the throw point (hasAudio is updated before the
track replacement, the video sender before the audio sender; the old tracks
are stopped and localStream reassigned only after every replacement
succeeded). -/
def changeQualityTry (env : MediaEnv) (s : WebRTCStreamer) (newQ : QualityLevel) :
    Except (String × WebRTCStreamer × List Event) (WebRTCStreamer × List Event) :=
  match getMediaStream env newQ with
  | .error e => .error (e, s, [])
  | .ok newStream =>
    let p : WebRTCStreamer × List Event :=
      if newStream.hasAudioTrack != s.hasAudio then
        ({ s with hasAudio := newStream.hasAudioTrack },
         [Event.audioStatusChanged newStream.hasAudioTrack])
      else (s, [])
    let s1 := p.1
    let evs1 := p.2
    match s1.peerConnection, s1.localStream with
    | some pc, some old =>
      match (if pc.videoSenderTrack.isSome then replaceVideoTrack env pc newStream.quality
             else .ok pc) with
      | .error e => .error (e, s1, evs1)
      | .ok pc1 =>
        match (if pc1.audioSenderTrack.isSome && newStream.hasAudioTrack then
                 replaceAudioTrack env pc1 newStream.quality
               else if newStream.hasAudioTrack && !pc1.audioSenderTrack.isSome then
                 .ok { pc1 with audioSenderTrack := some newStream.quality }
               else .ok pc1) with
        | .error e => .error (e, { s1 with peerConnection := some pc1 }, evs1)
        | .ok pc2 =>
          .ok ({ s1 with peerConnection := some pc2, localStream := some newStream,
                         currentQuality := newQ },
               evs1 ++ [Event.tracksStopped old, Event.qualityChangedNotified newQ])
    | _, _ =>
      .ok ({ s1 with currentQuality := newQ },
           evs1 ++ [Event.qualityChangedNotified newQ])

/-- Result of WebRTCStreamer.changeQuality as its caller observes it: the new
field values, the emitted actions, and the rejection the awaiting caller
receives (always none, because the catch block only logs). -/
structure ChangeQualityResult where
  state : WebRTCStreamer
  events : List Event
  thrown : Option String
deriving DecidableEq, Repr

/-- WebRTCStreamer.changeQuality: no-op when the level is unchanged;
otherwise runs the try-block; any error is caught and logged, never
rethrown. -/
def changeQuality (env : MediaEnv) (s : WebRTCStreamer) (newQ : QualityLevel) :
    ChangeQualityResult :=
  if newQ = s.currentQuality then { state := s, events := [], thrown := none }
  else
    match changeQualityTry env s newQ with
    | .ok (s1, evs) => { state := s1, events := evs, thrown := none }
    | .error (e, s1, evs) =>
      { state := s1, events := evs ++ [Event.logged e], thrown := none }

/-- The switch inside the streamer's polling loop: answer, ice-candidate and
quality-request are dispatched; every other type falls through with no
action.  There is no sender filtering and no deduplication set on the
streamer side. -/
def streamerDispatch (env : MediaEnv) (s : WebRTCStreamer) (m : SigMessage) :
    Except String (WebRTCStreamer × List Event) :=
  match m.type with
  | .answer => handleAnswer s (m.sdp.getD "")
  | .iceCandidate => s.handleIceCandidate (m.candidate.getD "")
  | .qualityRequest =>
    let r := changeQuality env s (m.quality.getD .low)
    .ok (r.state, r.events)
  | _ => .ok (s, [])

/-- One callback of the streamer polling loop's async forEach over one
stored record: skip it if its processed flag is set, otherwise dispatch it;
a thrown error is caught and logged.  The record is written back to the
relay unchanged either way: the loop's localStorage.setItem runs
synchronously right after the forEach, before the awaited handlers resolve,
so the message.processed = true assignment in each callback's continuation
mutates an in-memory object that has already been serialized — the flag is
never persisted for a dispatched record. -/
def streamerPollStep (env : MediaEnv) :
    WebRTCStreamer × List SigMessage × List Event → SigMessage →
    WebRTCStreamer × List SigMessage × List Event :=
  fun acc m =>
    if m.processed = true then (acc.1, acc.2.1 ++ [m], acc.2.2)
    else
      match streamerDispatch env acc.1 m with
      | .ok (s1, evs) => (s1, acc.2.1 ++ [m], acc.2.2 ++ evs)
      | .error e => (acc.1, acc.2.1 ++ [m], acc.2.2 ++ [Event.logged e])

/-- One tick of the streamer polling loop over the polled batch, returning
the new session state, the written-back relay records and the emitted
actions. -/
def streamerTick (env : MediaEnv) (s : WebRTCStreamer) (msgs : List SigMessage) :
    WebRTCStreamer × List SigMessage × List Event :=
  msgs.foldl (streamerPollStep env) (s, [], [])

/-- WebRTCStreamer.cleanup: clear the poll interval (the handle field itself
is kept), stop the capture tracks, close the data channel, close the peer
connection, then null the three handle fields. -/
def streamerCleanup (s : WebRTCStreamer) : WebRTCStreamer × List Event :=
  ({ s with localStream := none, dataChannel := none, peerConnection := none },
   (if s.signalingInterval then [Event.pollingStopped] else []) ++
   (match s.localStream with | some ms => [Event.tracksStopped ms] | none => []) ++
   (match s.dataChannel with | some _ => [Event.dataChannelClosed] | none => []) ++
   (match s.peerConnection with | some pc => [Event.peerConnectionClosed pc.pcId] | none => []))

/-- k successive calls of WebRTCStreamer.cleanup, with concatenated events. -/
def streamerCleanupK : Nat → WebRTCStreamer → WebRTCStreamer × List Event
  | 0, s => (s, [])
  | n + 1, s =>
    let r := streamerCleanup s
    let r2 := streamerCleanupK n r.1
    (r2.1, r.2 ++ r2.2)

/-! ### WebRTCReceiver (webrtc-receiver.ts) -/

/-- Mutable fields of class WebRTCReceiver.  robotId and operatorId are
constructor-immutable and passed as parameters (rid, oid).  nextPcId is the
model's supply of fresh peer-connection handle identities.  processedMessages
is the seen-envelope set, kept as a list.  As in the streamer,
signalingInterval records that the poll-interval handle was stored; cleanup
calls clearInterval but keeps the field. -/
structure WebRTCReceiver where
  peerConnection : Option RTCPeerConnection := none
  dataChannel : Option DataChannel := none
  remoteStreamSet : Bool := false
  currentQuality : QualityLevel := .low
  signalingInterval : Bool := false
  pendingIceCandidates : List IceCandidate := []
  remoteDescriptionSet : Bool := false
  processedMessages : List (MsgType × Nat × Option String) := []
  nextPcId : Nat := 0
deriving DecidableEq, Repr

/-- A freshly constructed WebRTCReceiver. -/
def receiverNew : WebRTCReceiver := {}

/-- The connection-request envelope built by WebRTCReceiver.requestConnection
(sendSignalingMessage also stamps receiverId). -/
def connectionRequestMsg (rid oid : String) (now : Nat) : SigMessage :=
  { type := .connectionRequest, robotId := rid, senderId := some oid,
    receiverId := some oid, timestamp := now }

/-- The answer envelope built in WebRTCReceiver.handleOffer. -/
def answerMsg (rid oid : String) (now : Nat) (answer : Sdp) : SigMessage :=
  { type := .answer, sdp := some answer, robotId := rid, senderId := some oid,
    receiverId := some oid, timestamp := now }

/-- The quality-request envelope built in
WebRTCReceiver.requestQualityChange. -/
def qualityRequestMsg (rid oid : String) (now : Nat) (q : QualityLevel) : SigMessage :=
  { type := .qualityRequest, quality := some q, robotId := rid, senderId := some oid,
    receiverId := some oid, timestamp := now }

/-- WebRTCReceiver.resetPeerConnection: close the existing handle, clear
remoteDescriptionSet and the pending-candidate buffer, create a fresh handle
and publish a new connection request. -/
def resetPeerConnection (rid oid : String) (now : Nat) (s : WebRTCReceiver) :
    WebRTCReceiver × List Event :=
  ({ s with peerConnection := some (newPeerConnection s.nextPcId),
            nextPcId := s.nextPcId + 1,
            remoteDescriptionSet := false,
            pendingIceCandidates := [] },
   (match s.peerConnection with
    | some pc => [Event.peerConnectionClosed pc.pcId]
    | none => []) ++
   [Event.published (connectionRequestMsg rid oid now)])

/-- WebRTCReceiver.initialize: create the peer connection, start the polling
loop, publish a connection request. -/
def initializeReceiver (rid oid : String) (now : Nat) (s : WebRTCReceiver) :
    WebRTCReceiver × List Event :=
  ({ s with peerConnection := some (newPeerConnection s.nextPcId),
            nextPcId := s.nextPcId + 1,
            signalingInterval := true },
   [Event.published (connectionRequestMsg rid oid now)])

/-- WebRTCReceiver.handleOffer: requires the peer connection; from
have-local-offer (an unanswered local offer outstanding) it resets instead of
applying the colliding offer; otherwise it applies the offer as remote
description, drains the pending candidates in order and clears the buffer,
then creates, applies and publishes an answer.  A setRemoteDescription
rejection is caught: remoteDescriptionSet is reset and the error logged. -/
def WebRTCReceiver.handleOffer (rid oid : String) (now : Nat) (s : WebRTCReceiver)
    (offer : Sdp) : Except String (WebRTCReceiver × List Event) :=
  match s.peerConnection with
  | none => .error "Peer connection not initialized"
  | some pc =>
    if pc.signalingState = .haveLocalOffer then
      .ok (resetPeerConnection rid oid now s)
    else
      match pc.setRemoteOffer offer with
      | .error e => .ok ({ s with remoteDescriptionSet := false }, [Event.logged e])
      | .ok pc1 =>
        let pc2 := drainPending pc1 s.pendingIceCandidates
        if pc2.signalingState = .haveRemoteOffer then
          let answer : Sdp := "answer"
          let pc3 : RTCPeerConnection :=
            { pc2 with signalingState := .stable, localDescription := some answer }
          .ok ({ s with peerConnection := some pc3,
                        remoteDescriptionSet := true,
                        pendingIceCandidates := [] },
               [Event.published (answerMsg rid oid now answer)])
        else
          .ok ({ s with peerConnection := some pc2,
                        remoteDescriptionSet := true,
                        pendingIceCandidates := [] },
               [Event.logged "Cannot create answer"])

/-- WebRTCReceiver.handleIceCandidate: requires the peer connection; while the
remote description is not yet set the candidate is appended to the pending
buffer, otherwise it is applied immediately. -/
def WebRTCReceiver.handleIceCandidate (s : WebRTCReceiver) (c : IceCandidate) :
    Except String (WebRTCReceiver × List Event) :=
  match s.peerConnection with
  | none => .error "Peer connection not initialized"
  | some pc =>
    if s.remoteDescriptionSet = false then
      .ok ({ s with pendingIceCandidates := s.pendingIceCandidates ++ [c] }, [])
    else
      .ok ({ s with peerConnection := some (pc.addIceCandidate c) }, [])

/-- Delivery of a sequence of ICE candidates, one
WebRTCReceiver.handleIceCandidate call per candidate, in order. -/
def WebRTCReceiver.handleIceCandidates (s : WebRTCReceiver) :
    List IceCandidate → Except String (WebRTCReceiver × List Event)
  | [] => .ok (s, [])
  | c :: rest =>
    match s.handleIceCandidate c with
    | .error e => .error e
    | .ok (s1, evs) =>
      match s1.handleIceCandidates rest with
      | .error e => .error e
      | .ok (s2, evs2) => .ok (s2, evs ++ evs2)

/-- WebRTCReceiver.requestQualityChange: a no-op when the requested level
equals currentQuality (which only a quality-change confirmation over the data
channel updates); otherwise publishes a quality-request envelope and, when the
data channel is open, also sends the request over it. -/
def requestQualityChange (rid oid : String) (now : Nat) (s : WebRTCReceiver)
    (q : QualityLevel) : WebRTCReceiver × List Event :=
  if q = s.currentQuality then (s, [])
  else
    (s, [Event.published (qualityRequestMsg rid oid now q)] ++
        (match s.dataChannel with
         | some dc => if dc.isOpen then [Event.dataChannelSent q] else []
         | none => []))

/-- WebRTCReceiver.requestFocus: request high quality. -/
def requestFocus (rid oid : String) (now : Nat) (s : WebRTCReceiver) :
    WebRTCReceiver × List Event :=
  requestQualityChange rid oid now s .high

/-- WebRTCReceiver.releaseFocus: request low quality. -/
def releaseFocus (rid oid : String) (now : Nat) (s : WebRTCReceiver) :
    WebRTCReceiver × List Event :=
  requestQualityChange rid oid now s .low

/-- The data-channel quality-change confirmation handler (the only writer of
the receiver's currentQuality). -/
def onDataChannelQualityChange (s : WebRTCReceiver) (q : QualityLevel) :
    WebRTCReceiver × List Event :=
  ({ s with currentQuality := q }, [Event.qualityChangedNotified q])

/-- The switch inside the receiver's polling loop: only offer and
ice-candidate envelopes are dispatched; every other type falls through with
no action. -/
def receiverDispatch (rid oid : String) (now : Nat) (s : WebRTCReceiver)
    (m : SigMessage) : Except String (WebRTCReceiver × List Event) :=
  match m.type with
  | .offer => s.handleOffer rid oid now (m.sdp.getD "")
  | .iceCandidate => s.handleIceCandidate (m.candidate.getD "")
  | _ => .ok (s, [])

/-- One callback of the receiver polling loop's async forEach over one
stored record, covering the effects observed during the batch itself: skip
the record when its processed flag is set or its senderId is this operator
(self-echo), skip it when its identity is already in processedMessages,
otherwise dispatch it (a thrown error is caught and logged).  Crucially,
this step does NOT add the record's identity to processedMessages: in the
source that this.processedMessages.add(messageId) sits after the awaited
handler inside the async callback, so it runs in a microtask after the
forEach loop — after every record of the batch has already executed its
synchronous dedup check.  No dispatched handler writes processedMessages
either, so during one batch every check reads the set as it stood when the
batch began; the deferred additions are applied by receiverTick.  As on the
streamer side, records are written back unchanged (the processed flag is
assigned only after localStorage.setItem has run and is never persisted). -/
def receiverPollStep (rid oid : String) (now : Nat) :
    WebRTCReceiver × List SigMessage × List Event → SigMessage →
    WebRTCReceiver × List SigMessage × List Event :=
  fun acc m =>
    if m.processed = true ∨ m.senderId = some oid then
      (acc.1, acc.2.1 ++ [m], acc.2.2)
    else if msgIdOf m ∈ acc.1.processedMessages then
      (acc.1, acc.2.1 ++ [m], acc.2.2)
    else
      match receiverDispatch rid oid now acc.1 m with
      | .ok (s1, evs) => (s1, acc.2.1 ++ [m], acc.2.2 ++ evs)
      | .error e => (acc.1, acc.2.1 ++ [m], acc.2.2 ++ [Event.logged e])

/-- The identities the callbacks' deferred continuations add to
processedMessages once the batch's synchronous pass is over: those of the
records that passed every check and whose dispatch did not throw, in order.
The dedup checks along the way read the session threaded through the
dispatches, whose processedMessages component never changes during a
batch. -/
def receiverBatchIds (rid oid : String) (now : Nat) :
    WebRTCReceiver → List SigMessage → List (MsgType × Nat × Option String)
  | _, [] => []
  | s, m :: rest =>
    if m.processed = true ∨ m.senderId = some oid then
      receiverBatchIds rid oid now s rest
    else if msgIdOf m ∈ s.processedMessages then
      receiverBatchIds rid oid now s rest
    else
      match receiverDispatch rid oid now s m with
      | .ok (s1, _) => msgIdOf m :: receiverBatchIds rid oid now s1 rest
      | .error _ => receiverBatchIds rid oid now s rest

/-- One tick of the receiver polling loop over the polled batch: the
synchronous pass folds the callbacks over the records, then the deferred
continuations add the dispatched identities to the seen set.  The records
are written back unchanged. -/
def receiverTick (rid oid : String) (now : Nat) (s : WebRTCReceiver)
    (msgs : List SigMessage) : WebRTCReceiver × List SigMessage × List Event :=
  let r := msgs.foldl (receiverPollStep rid oid now) (s, [], [])
  ({ r.1 with processedMessages :=
      r.1.processedMessages ++ receiverBatchIds rid oid now s msgs },
   r.2.1, r.2.2)

/-- WebRTCReceiver.cleanup: clear the poll interval (keeping the handle
field), close the data channel, close the peer connection, then null the
handles, drop the remote stream, clear the candidate buffer, the
remote-description flag and the seen set. -/
def receiverCleanup (s : WebRTCReceiver) : WebRTCReceiver × List Event :=
  ({ s with dataChannel := none, peerConnection := none, remoteStreamSet := false,
            remoteDescriptionSet := false, pendingIceCandidates := [],
            processedMessages := [] },
   (if s.signalingInterval then [Event.pollingStopped] else []) ++
   (match s.dataChannel with | some _ => [Event.dataChannelClosed] | none => []) ++
   (match s.peerConnection with | some pc => [Event.peerConnectionClosed pc.pcId] | none => []))

/-- k successive calls of WebRTCReceiver.cleanup, with concatenated events. -/
def receiverCleanupK : Nat → WebRTCReceiver → WebRTCReceiver × List Event
  | 0, s => (s, [])
  | n + 1, s =>
    let r := receiverCleanup s
    let r2 := receiverCleanupK n r.1
    (r2.1, r.2 ++ r2.2)

/-- The focus-adaptation inputs consumed by the VideoStream component's
effect: a focus-state change (applied while the session is connected) calls
requestFocus or releaseFocus; a quality-change confirmation arriving over the
data channel updates currentQuality. -/
inductive FocusEvent
  | setFocus (b : Bool)
  | confirmQuality (q : QualityLevel)
deriving DecidableEq, Repr

/-- Apply one focus-adaptation input to the receiver. -/
def applyFocusEvent (rid oid : String) (now : Nat) (s : WebRTCReceiver) :
    FocusEvent → WebRTCReceiver × List Event
  | .setFocus true => requestFocus rid oid now s
  | .setFocus false => releaseFocus rid oid now s
  | .confirmQuality q => onDataChannelQualityChange s q

/-- Run a trace of focus-adaptation inputs, concatenating the emitted
actions. -/
def runFocusTrace (rid oid : String) (now : Nat) (s : WebRTCReceiver) :
    List FocusEvent → WebRTCReceiver × List Event
  | [] => (s, [])
  | e :: rest =>
    let r := applyFocusEvent rid oid now s e
    let r2 := runFocusTrace rid oid now r.1 rest
    (r2.1, r.2 ++ r2.2)

/-! ### Helper lemmas -/

/-- Draining a candidate list appends it to the applied-candidate list and
changes nothing else. -/
theorem drainPending_eq (cs : List IceCandidate) (pc : RTCPeerConnection) :
    drainPending pc cs = { pc with appliedCandidates := pc.appliedCandidates ++ cs } := by
  induction cs generalizing pc with
  | nil => simp [drainPending]
  | cons c rest ih =>
    show drainPending (pc.addIceCandidate c) rest = _
    rw [ih]
    simp [RTCPeerConnection.addIceCandidate]

/-- While the remote description is not set, delivering a candidate sequence
just appends it to the pending buffer, with no observable action. -/
theorem handleIceCandidates_buffer (cs : List IceCandidate) :
    ∀ (s : WebRTCReceiver) (pc : RTCPeerConnection),
      s.peerConnection = some pc → s.remoteDescriptionSet = false →
      s.handleIceCandidates cs =
        .ok ({ s with pendingIceCandidates := s.pendingIceCandidates ++ cs }, []) := by
  induction cs with
  | nil => intro s pc h1 h2; simp [WebRTCReceiver.handleIceCandidates]
  | cons c rest ih =>
    intro s pc h1 h2
    have hstep : s.handleIceCandidate c =
        .ok ({ s with pendingIceCandidates := s.pendingIceCandidates ++ [c] }, []) := by
      simp [WebRTCReceiver.handleIceCandidate, h1, h2]
    have hrest := ih { s with pendingIceCandidates := s.pendingIceCandidates ++ [c] } pc
      (by simpa using h1) (by simpa using h2)
    simp [WebRTCReceiver.handleIceCandidates, hstep, hrest, List.append_assoc]

def exceptIsOk {ε α : Type _} : Except ε α → Bool
  | .ok _ => true
  | .error _ => false

/-! ### Claim theorems -/

/-- Claim C7 (confirmed): streamer capture acquisition falls back from
video+audio to video-only; the video-only fallback yields has_audio = false;
acquisition (and hence initialize) fails exactly when no video capture is
available. -/
theorem c7_capture_fallback (env : MediaEnv) (q : QualityLevel) (s : WebRTCStreamer) :
    (exceptIsOk (getMediaStream env q) = env.videoOk) ∧
    (env.audioOk = false → ∀ ms, getMediaStream env q = .ok ms → ms.hasAudioTrack = false) ∧
    (exceptIsOk (initializeStreamer env s) = env.videoOk) ∧
    (∀ s1 evs, initializeStreamer env s = .ok (s1, evs) →
      s1.hasAudio = (env.videoOk && env.audioOk)) := by
  obtain ⟨v, a, r⟩ := env
  cases v <;> cases a <;>
    simp [getMediaStream, initializeStreamer, exceptIsOk]

/-- Claim C7 witness at a video-only environment. -/
theorem c7_capture_fallback_witness :
    MediaEnv.audioOk { videoOk := true, audioOk := false } = false ∧
    (∀ ms, getMediaStream { videoOk := true, audioOk := false } .low = .ok ms →
      ms.hasAudioTrack = false) :=
  ⟨rfl, (c7_capture_fallback { videoOk := true, audioOk := false } .low streamerNew).2.1 rfl⟩

/-- Claim C10 (confirmed): with no peer-connection handle (initialize not
completed, or cleanup having nulled it), createOffer / handleAnswer /
handleIceCandidate on the streamer and handleOffer / handleIceCandidate on
the receiver throw "Peer connection not initialized"; when such an envelope
arrives through either polling loop the error is caught and the session
state is unchanged. -/
theorem c10_uninitialized_throws (rid oid : String) (now : Nat)
    (st : WebRTCStreamer) (r : WebRTCReceiver) (a c offer cd : String)
    (hst : st.peerConnection = none) (hr : r.peerConnection = none) :
    createOffer rid now st = .error "Peer connection not initialized" ∧
    handleAnswer st a = .error "Peer connection not initialized" ∧
    st.handleIceCandidate c = .error "Peer connection not initialized" ∧
    r.handleOffer rid oid now offer = .error "Peer connection not initialized" ∧
    r.handleIceCandidate cd = .error "Peer connection not initialized" ∧
    (∀ m : SigMessage, m.type = .offer ∨ m.type = .iceCandidate →
      (receiverTick rid oid now r [m]).1 = r) ∧
    (∀ (env : MediaEnv) (m : SigMessage), m.type = .answer ∨ m.type = .iceCandidate →
      (streamerTick env st [m]).1 = st) := by
  refine ⟨?_, ?_, ?_, ?_, ?_, ?_, ?_⟩
  · simp [createOffer, hst]
  · simp [handleAnswer, hst]
  · simp [WebRTCStreamer.handleIceCandidate, hst]
  · simp [WebRTCReceiver.handleOffer, hr]
  · simp [WebRTCReceiver.handleIceCandidate, hr]
  · intro m hm
    by_cases h1 : m.processed = true ∨ m.senderId = some oid
    · simp [receiverTick, receiverPollStep, receiverBatchIds, h1]
    · by_cases h2 : msgIdOf m ∈ r.processedMessages
      · simp [receiverTick, receiverPollStep, receiverBatchIds, h1, h2]
      · rcases hm with h | h <;>
          simp [receiverTick, receiverPollStep, receiverBatchIds, h1, h2,
                receiverDispatch, h,
                WebRTCReceiver.handleOffer, WebRTCReceiver.handleIceCandidate, hr] <;>
          rw [← hr]
  · intro env m hm
    by_cases h1 : m.processed = true
    · simp [streamerTick, streamerPollStep, h1]
    · rcases hm with h | h <;>
        simp [streamerTick, streamerPollStep, h1, streamerDispatch, h,
              handleAnswer, WebRTCStreamer.handleIceCandidate, hst]

/-- Claim C10 witness on fresh sessions. -/
theorem c10_uninitialized_throws_witness :
    streamerNew.peerConnection = none ∧ receiverNew.peerConnection = none ∧
    handleAnswer streamerNew "a" = .error "Peer connection not initialized" ∧
    receiverNew.handleOffer "r1" "op1" 0 "o" = .error "Peer connection not initialized" :=
  ⟨rfl, rfl,
   (c10_uninitialized_throws "r1" "op1" 0 streamerNew receiverNew "a" "c" "o" "d"
      rfl rfl).2.1,
   (c10_uninitialized_throws "r1" "op1" 0 streamerNew receiverNew "a" "c" "o" "d"
      rfl rfl).2.2.2.1⟩

/-- Claim C3 (confirmed): a receiver with an outstanding local offer that
receives a peer offer performs a full reset: its current handle is closed
(exactly one peerConnectionClosed action), the pending-candidate buffer and
remote-description flag are cleared, exactly one fresh handle is created and
exactly one connection-request envelope is published; the colliding offer is
not applied (the fresh handle carries no remote description and no
candidates). -/
theorem c3_reset_on_collision (rid oid : String) (now : Nat) (s : WebRTCReceiver)
    (pc : RTCPeerConnection) (offer : Sdp)
    (hpc : s.peerConnection = some pc) (hls : pc.signalingState = .haveLocalOffer) :
    s.handleOffer rid oid now offer =
      .ok ({ s with peerConnection := some (newPeerConnection s.nextPcId),
                    nextPcId := s.nextPcId + 1,
                    remoteDescriptionSet := false,
                    pendingIceCandidates := [] },
           [Event.peerConnectionClosed pc.pcId,
            Event.published (connectionRequestMsg rid oid now)]) ∧
    countPcClosed [Event.peerConnectionClosed pc.pcId,
                   Event.published (connectionRequestMsg rid oid now)] = 1 ∧
    (newPeerConnection s.nextPcId).remoteDescription = none ∧
    (newPeerConnection s.nextPcId).appliedCandidates = [] := by
  refine ⟨?_, by simp [countPcClosed], rfl, rfl⟩
  simp [WebRTCReceiver.handleOffer, hpc, hls, resetPeerConnection]

def c3demoPc : RTCPeerConnection := { pcId := 4, signalingState := .haveLocalOffer }

def c3demoState : WebRTCReceiver :=
  { receiverNew with peerConnection := some c3demoPc,
                     pendingIceCandidates := ["x"], nextPcId := 5 }

/-- Claim C3 witness on a concrete colliding receiver. -/
theorem c3_reset_on_collision_witness :
    c3demoState.peerConnection = some c3demoPc ∧
    c3demoPc.signalingState = .haveLocalOffer ∧
    c3demoState.handleOffer "r1" "op1" 9 "sdpO" =
      .ok ({ c3demoState with
              peerConnection := some (newPeerConnection c3demoState.nextPcId),
              nextPcId := c3demoState.nextPcId + 1,
              remoteDescriptionSet := false,
              pendingIceCandidates := [] },
           [Event.peerConnectionClosed c3demoPc.pcId,
            Event.published (connectionRequestMsg "r1" "op1" 9)]) :=
  ⟨rfl, rfl, (c3_reset_on_collision "r1" "op1" 9 c3demoState c3demoPc "sdpO" rfl rfl).1⟩


/-- Claim C2 (amended, receiver only): on a receiver with the remote
description not yet applied, N candidates are appended to the pending buffer
in arrival order; handleOffer then sets the remote description and drains
the buffered candidates in order, clearing the buffer; one further candidate
is applied immediately, so all N+1 are applied exactly once in arrival
order.  The streamer role, by contrast, buffers nothing: it applies every
candidate immediately. -/
theorem c2_candidate_ordering (rid oid : String) (now : Nat) (s : WebRTCReceiver)
    (pc : RTCPeerConnection) (cs : List IceCandidate) (c : IceCandidate) (offer : Sdp)
    (hpc : s.peerConnection = some pc) (hrd : s.remoteDescriptionSet = false)
    (hpend : s.pendingIceCandidates = []) (hss : pc.signalingState = .stable)
    (happ : pc.appliedCandidates = []) :
    (∃ s1 s2 s3 evs2,
      s.handleIceCandidates cs = .ok (s1, []) ∧
      s1.pendingIceCandidates = cs ∧
      s1.peerConnection.map (fun p => p.appliedCandidates) = some [] ∧
      s1.handleOffer rid oid now offer = .ok (s2, evs2) ∧
      s2.pendingIceCandidates = [] ∧
      s2.peerConnection.map (fun p => p.appliedCandidates) = some cs ∧
      s2.remoteDescriptionSet = true ∧
      s2.handleIceCandidate c = .ok (s3, []) ∧
      s3.peerConnection.map (fun p => p.appliedCandidates) = some (cs ++ [c]) ∧
      s3.pendingIceCandidates = []) ∧
    (∀ (st : WebRTCStreamer) (pcs : RTCPeerConnection) (cd : IceCandidate),
      st.peerConnection = some pcs →
      st.handleIceCandidate cd =
        .ok ({ st with peerConnection := some (pcs.addIceCandidate cd) }, [])) := by
  constructor
  · obtain ⟨opc, odc, rss, cq, si, pen, rds, pm, np⟩ := s
    obtain ⟨pid, pss, prd, pld, pap, pvt, pat⟩ := pc
    simp only [] at hpc hrd hpend
    subst hpc hrd hpend
    simp only [] at hss happ
    subst hss happ
    refine ⟨⟨some ⟨pid, .stable, prd, pld, [], pvt, pat⟩, odc, rss, cq, si, cs, false, pm, np⟩,
            ⟨some ⟨pid, .stable, some offer, some "answer", cs, pvt, pat⟩,
             odc, rss, cq, si, [], true, pm, np⟩,
            ⟨some ⟨pid, .stable, some offer, some "answer", cs ++ [c], pvt, pat⟩,
             odc, rss, cq, si, [], true, pm, np⟩,
            [Event.published (answerMsg rid oid now "answer")],
            ?_, rfl, rfl, ?_, rfl, rfl, rfl, ?_, rfl, rfl⟩
    · rw [handleIceCandidates_buffer cs _ ⟨pid, .stable, prd, pld, [], pvt, pat⟩ rfl rfl]
      simp
    · simp [WebRTCReceiver.handleOffer, RTCPeerConnection.setRemoteOffer, drainPending_eq]
    · simp [WebRTCReceiver.handleIceCandidate, RTCPeerConnection.addIceCandidate]
  · intro st pcs cd h
    simp [WebRTCStreamer.handleIceCandidate, h]

/-- A streamer whose peer connection exists but has no remote description. -/
def streamerWithPc : WebRTCStreamer :=
  { streamerNew with peerConnection := some (newPeerConnection 0) }

/-- Claim C2 counterexample: the claim asserts that for BOTH roles a
candidate delivered before the remote description is appended to a pending
buffer and applied only after the remote description is set.  The streamer
applies the candidate to the connection immediately — here the candidate is
already applied while the remote description is still unset, and the
streamer state holds no buffered candidate anywhere. -/
theorem c2_candidate_ordering_counterexample :
    streamerWithPc.handleIceCandidate "c1" =
      .ok ({ streamerWithPc with
              peerConnection := some { newPeerConnection 0 with appliedCandidates := ["c1"] } },
           []) ∧
    (newPeerConnection 0).remoteDescription = none := by
  constructor
  · rfl
  · rfl

/-- Receiver demo state for the C2 witness. -/
def c2demoReceiver : WebRTCReceiver :=
  { receiverNew with peerConnection := some (newPeerConnection 0) }

/-- Claim C2 witness at two buffered candidates plus one late candidate. -/
theorem c2_candidate_ordering_witness :
    c2demoReceiver.peerConnection = some (newPeerConnection 0) ∧
    c2demoReceiver.remoteDescriptionSet = false ∧
    c2demoReceiver.pendingIceCandidates = [] ∧
    (newPeerConnection 0).signalingState = .stable ∧
    (newPeerConnection 0).appliedCandidates = [] ∧
    (∃ s1 s2 s3 evs2,
      c2demoReceiver.handleIceCandidates ["a", "b"] = .ok (s1, []) ∧
      s1.pendingIceCandidates = ["a", "b"] ∧
      s1.peerConnection.map (fun p => p.appliedCandidates) = some [] ∧
      s1.handleOffer "r1" "op1" 9 "sdpO" = .ok (s2, evs2) ∧
      s2.pendingIceCandidates = [] ∧
      s2.peerConnection.map (fun p => p.appliedCandidates) = some ["a", "b"] ∧
      s2.remoteDescriptionSet = true ∧
      s2.handleIceCandidate "c" = .ok (s3, []) ∧
      s3.peerConnection.map (fun p => p.appliedCandidates) = some (["a", "b"] ++ ["c"]) ∧
      s3.pendingIceCandidates = []) :=
  ⟨rfl, rfl, rfl, rfl, rfl,
   (c2_candidate_ordering "r1" "op1" 9 c2demoReceiver (newPeerConnection 0)
      ["a", "b"] "c" "sdpO" rfl rfl rfl rfl rfl).1⟩

/-- Claim C1 (amended): the receiver deduplicates inbound envelopes by
(kind, created_at, sender_id) across polls: an envelope whose identity is
already in the seen set is discarded without side effects, and re-delivering
a record in a later poll, after any poll that contained it, leaves the
session state unchanged.  Within one polled batch, however, the seen-set
additions run in the callbacks' continuations — after every record of the
batch has executed its synchronous dedup check — so two same-identity
records in one batch are both dispatched; and the streamer keeps no seen set
at all, relying only on the relay-side processed flag.  See the
counterexample for both failures of the original claim. -/
theorem c1_idempotent_delivery (rid oid : String) (now : Nat) (s : WebRTCReceiver)
    (m : SigMessage) :
    (msgIdOf m ∈ s.processedMessages →
      receiverTick rid oid now s [m] = (s, [m], [])) ∧
    (receiverTick rid oid now (receiverTick rid oid now s [m]).1 [m]).1 =
      (receiverTick rid oid now s [m]).1 := by
  constructor
  · intro hmem
    by_cases h1 : m.processed = true ∨ m.senderId = some oid
    · simp [receiverTick, receiverPollStep, receiverBatchIds, h1]
    · simp [receiverTick, receiverPollStep, receiverBatchIds, h1, hmem]
  · by_cases h1 : m.processed = true ∨ m.senderId = some oid
    · simp [receiverTick, receiverPollStep, receiverBatchIds, h1]
    · by_cases h2 : msgIdOf m ∈ s.processedMessages
      · simp [receiverTick, receiverPollStep, receiverBatchIds, h1, h2]
      · rcases hd : receiverDispatch rid oid now s m with e | ⟨s1, evs⟩
        · simp [receiverTick, receiverPollStep, receiverBatchIds, h1, h2, hd]
        · simp [receiverTick, receiverPollStep, receiverBatchIds, h1, h2, hd]

/-- Default media environment for deliveries that do not touch capture. -/
def envDefault : MediaEnv := { videoOk := true, audioOk := true }

/-- A duplicated ice-candidate relay record (same kind, created_at and
sender as its twin) delivered to the streamer. -/
def c1dupMsg : SigMessage :=
  { type := .iceCandidate, candidate := some "c1", robotId := "r1", timestamp := 3 }

/-- The same duplicated ice-candidate record as sent to the receiver, from a
sender distinct from the operator, before the remote description is set. -/
def c1rdupMsg : SigMessage :=
  { type := .iceCandidate, candidate := some "c1", robotId := "r1",
    senderId := some "other", timestamp := 3 }

/-- Claim C1 counterexample: applying the same envelope twice through one
polled batch does NOT equal applying it once, for either role.  On the
receiver, the dedup check of the second record runs before the first
record's deferred seen-set addition, so a duplicated ice-candidate delivered
before the remote description is queued twice in the pending buffer.  The
streamer has no seen set, so the duplicated candidate is applied to the
connection twice. -/
theorem c1_idempotent_delivery_counterexample :
    (receiverTick "r1" "op1" 0 c2demoReceiver
        [c1rdupMsg, c1rdupMsg]).1.pendingIceCandidates = ["c1", "c1"] ∧
    (receiverTick "r1" "op1" 0 c2demoReceiver [c1rdupMsg, c1rdupMsg]).1 ≠
      (receiverTick "r1" "op1" 0 c2demoReceiver [c1rdupMsg]).1 ∧
    (streamerTick envDefault streamerWithPc [c1dupMsg, c1dupMsg]).1.peerConnection.map
        (fun p => p.appliedCandidates) = some ["c1", "c1"] ∧
    (streamerTick envDefault streamerWithPc [c1dupMsg, c1dupMsg]).1 ≠
      (streamerTick envDefault streamerWithPc [c1dupMsg]).1 := by
  refine ⟨rfl, by decide, rfl, by decide⟩

/-- A receiver that has already seen a given envelope identity. -/
def c1seenReceiver : WebRTCReceiver :=
  { receiverNew with peerConnection := some (newPeerConnection 0),
                     processedMessages := [(MsgType.iceCandidate, 2, some "other")] }

/-- The envelope whose identity c1seenReceiver has already processed. -/
def c1seenMsg : SigMessage :=
  { type := .iceCandidate, candidate := some "c9", robotId := "r1",
    senderId := some "other", timestamp := 2 }

/-- Claim C1 witness: an envelope seen in an earlier poll is discarded
without side effects. -/
theorem c1_idempotent_delivery_witness :
    msgIdOf c1seenMsg ∈ c1seenReceiver.processedMessages ∧
    receiverTick "r1" "op1" 0 c1seenReceiver [c1seenMsg] =
      (c1seenReceiver, [c1seenMsg], []) :=
  ⟨by decide,
   (c1_idempotent_delivery "r1" "op1" 0 c1seenReceiver c1seenMsg).1 (by decide)⟩

/-- Claim C4 (amended): the receiver never applies an envelope whose
senderId equals its own operator id — at any position in a polled batch the
record is skipped with no state change and no observable action.  The
streamer makes no sender check at all (its own published envelopes carry no
senderId and its loop never reads one), so a self-echoed envelope is
dispatched — see the counterexample. -/
theorem c4_self_echo_filtering (rid oid : String) (now : Nat) (s : WebRTCReceiver)
    (out : List SigMessage) (evs : List Event) (m : SigMessage)
    (h : m.senderId = some oid) :
    receiverPollStep rid oid now (s, out, evs) m = (s, out ++ [m], evs) ∧
    receiverTick rid oid now s [m] = (s, [m], []) := by
  constructor
  · simp [receiverPollStep, h]
  · simp [receiverTick, receiverPollStep, receiverBatchIds, h]

/-- An ice-candidate envelope whose sender is the streamer session itself
(sender_id equal to the session's robot id), echoed back by the relay. -/
def c4echoMsg : SigMessage :=
  { type := .iceCandidate, candidate := some "candA", robotId := "robot7",
    senderId := some "robot7", timestamp := 7 }

/-- Claim C4 counterexample: the streamer polling loop consults no sender
identity, so an envelope whose sender_id equals the session's own identity
(robot7) is applied: the candidate lands in the applied-candidate list and
the session state changes. -/
theorem c4_self_echo_filtering_counterexample :
    (streamerTick envDefault streamerWithPc [c4echoMsg]).1.peerConnection.map
        (fun p => p.appliedCandidates) = some ["candA"] ∧
    (streamerTick envDefault streamerWithPc [c4echoMsg]).1 ≠ streamerWithPc := by
  constructor
  · rfl
  · decide

/-- A self-echoed envelope for the receiver side. -/
def c4selfMsg : SigMessage :=
  { type := .offer, sdp := some "o", robotId := "r1", senderId := some "op1",
    timestamp := 4 }

/-- Claim C4 witness: the receiver discards its own echoed envelope. -/
theorem c4_self_echo_filtering_witness :
    c4selfMsg.senderId = some "op1" ∧
    receiverTick "r1" "op1" 0 receiverNew [c4selfMsg] = (receiverNew, [c4selfMsg], []) :=
  ⟨rfl, (c4_self_echo_filtering "r1" "op1" 0 receiverNew [] [] c4selfMsg rfl).2⟩

/-- A second streamer cleanup leaves the state fixed and performs no release
action (only the harmless clearInterval call on the already-cancelled
timer). -/
theorem streamerCleanup_idem (s : WebRTCStreamer) :
    (streamerCleanup (streamerCleanup s).1).1 = (streamerCleanup s).1 ∧
    (streamerCleanup (streamerCleanup s).1).2.filter Event.isRelease = [] := by
  obtain ⟨opc, ols, odc, cq, ha, si⟩ := s
  cases si <;> simp [streamerCleanup, Event.isRelease]

/-- A second receiver cleanup leaves the state fixed and performs no release
action. -/
theorem receiverCleanup_idem (r : WebRTCReceiver) :
    (receiverCleanup (receiverCleanup r).1).1 = (receiverCleanup r).1 ∧
    (receiverCleanup (receiverCleanup r).1).2.filter Event.isRelease = [] := by
  obtain ⟨opc, odc, rss, cq, si, pen, rds, pm, np⟩ := r
  cases si <;> simp [receiverCleanup, Event.isRelease]

/-- k streamer cleanups (k at least 1) end in the state of one cleanup and
perform exactly the release actions of the first. -/
theorem streamerCleanupK_spec (k : Nat) (s : WebRTCStreamer) (hk : 1 ≤ k) :
    (streamerCleanupK k s).1 = (streamerCleanup s).1 ∧
    (streamerCleanupK k s).2.filter Event.isRelease =
      (streamerCleanup s).2.filter Event.isRelease := by
  induction k generalizing s with
  | zero => omega
  | succ n ih =>
    cases n with
    | zero => simp [streamerCleanupK]
    | succ m =>
      have h2 := ih (streamerCleanup s).1 (by omega)
      have hidem := streamerCleanup_idem s
      constructor
      · show (streamerCleanupK (m + 1) (streamerCleanup s).1).1 = _
        rw [h2.1, hidem.1]
      · show ((streamerCleanup s).2 ++ (streamerCleanupK (m + 1) (streamerCleanup s).1).2).filter
            Event.isRelease = _
        rw [List.filter_append, h2.2, hidem.2, List.append_nil]

/-- k receiver cleanups (k at least 1) end in the state of one cleanup and
perform exactly the release actions of the first. -/
theorem receiverCleanupK_spec (k : Nat) (r : WebRTCReceiver) (hk : 1 ≤ k) :
    (receiverCleanupK k r).1 = (receiverCleanup r).1 ∧
    (receiverCleanupK k r).2.filter Event.isRelease =
      (receiverCleanup r).2.filter Event.isRelease := by
  induction k generalizing r with
  | zero => omega
  | succ n ih =>
    cases n with
    | zero => simp [receiverCleanupK]
    | succ m =>
      have h2 := ih (receiverCleanup r).1 (by omega)
      have hidem := receiverCleanup_idem r
      constructor
      · show (receiverCleanupK (m + 1) (receiverCleanup r).1).1 = _
        rw [h2.1, hidem.1]
      · show ((receiverCleanup r).2 ++ (receiverCleanupK (m + 1) (receiverCleanup r).1).2).filter
            Event.isRelease = _
        rw [List.filter_append, h2.2, hidem.2, List.append_nil]

/-- Claim C5 (confirmed): for every session and k at least 1, k cleanup calls
release each held handle exactly once (capture tracks, data channel, peer
connection), stop the polling loop, end in a state whose handle fields are
null and whose buffers are empty, and never throw (the operations are total
by construction); cleanup of a freshly constructed session is a no-op.
Repeated calls perform no further release: only the harmless clearInterval
call on the already-cancelled timer is repeated, because the source keeps
the interval handle field. -/
theorem c5_cleanup_idempotence (s : WebRTCStreamer) (r : WebRTCReceiver) (k : Nat)
    (hk : 1 ≤ k) :
    ((streamerCleanupK k s).2.filter Event.isRelease =
      (streamerCleanup s).2.filter Event.isRelease) ∧
    (countTracksStopped (streamerCleanup s).2 = if s.localStream.isSome then 1 else 0) ∧
    (countDcClosed (streamerCleanup s).2 = if s.dataChannel.isSome then 1 else 0) ∧
    (countPcClosed (streamerCleanup s).2 = if s.peerConnection.isSome then 1 else 0) ∧
    ((streamerCleanupK k s).1 = (streamerCleanup s).1 ∧
     (streamerCleanupK k s).1.localStream = none ∧
     (streamerCleanupK k s).1.dataChannel = none ∧
     (streamerCleanupK k s).1.peerConnection = none) ∧
    (s.signalingInterval = true → Event.pollingStopped ∈ (streamerCleanup s).2) ∧
    (streamerCleanup streamerNew = (streamerNew, [])) ∧
    ((receiverCleanupK k r).2.filter Event.isRelease =
      (receiverCleanup r).2.filter Event.isRelease) ∧
    (countDcClosed (receiverCleanup r).2 = if r.dataChannel.isSome then 1 else 0) ∧
    (countPcClosed (receiverCleanup r).2 = if r.peerConnection.isSome then 1 else 0) ∧
    (countTracksStopped (receiverCleanup r).2 = 0) ∧
    ((receiverCleanupK k r).1 = (receiverCleanup r).1 ∧
     (receiverCleanupK k r).1.dataChannel = none ∧
     (receiverCleanupK k r).1.peerConnection = none ∧
     (receiverCleanupK k r).1.pendingIceCandidates = [] ∧
     (receiverCleanupK k r).1.processedMessages = []) ∧
    (r.signalingInterval = true → Event.pollingStopped ∈ (receiverCleanup r).2) ∧
    (receiverCleanup receiverNew = (receiverNew, [])) := by
  have hs := streamerCleanupK_spec k s hk
  have hr := receiverCleanupK_spec k r hk
  obtain ⟨opc, ols, odc, cq, ha, si⟩ := s
  obtain ⟨rpc, rdc, rss, rcq, rsi, rpen, rrds, rpm, rnp⟩ := r
  refine ⟨hs.2, ?_, ?_, ?_, ⟨hs.1, ?_, ?_, ?_⟩, ?_, by rfl,
          hr.2, ?_, ?_, ?_, ⟨hr.1, ?_, ?_, ?_, ?_⟩, ?_, by rfl⟩
  · cases si <;> rcases ols with _ | ms <;> rcases odc with _ | dc <;>
      rcases opc with _ | pc <;> simp [streamerCleanup, countTracksStopped]
  · cases si <;> rcases ols with _ | ms <;> rcases odc with _ | dc <;>
      rcases opc with _ | pc <;> simp [streamerCleanup, countDcClosed]
  · cases si <;> rcases ols with _ | ms <;> rcases odc with _ | dc <;>
      rcases opc with _ | pc <;> simp [streamerCleanup, countPcClosed]
  · rw [hs.1]; rfl
  · rw [hs.1]; rfl
  · rw [hs.1]; rfl
  · intro h; simp [streamerCleanup]; exact Or.inl h
  · cases rsi <;> rcases rdc with _ | dc <;> rcases rpc with _ | pc <;>
      simp [receiverCleanup, countDcClosed]
  · cases rsi <;> rcases rdc with _ | dc <;> rcases rpc with _ | pc <;>
      simp [receiverCleanup, countPcClosed]
  · cases rsi <;> rcases rdc with _ | dc <;> rcases rpc with _ | pc <;>
      simp [receiverCleanup, countTracksStopped]
  · rw [hr.1]; rfl
  · rw [hr.1]; rfl
  · rw [hr.1]; rfl
  · rw [hr.1]; rfl
  · intro h; simp [receiverCleanup]; exact Or.inl h

/-- A fully initialized streamer for the cleanup witnesses. -/
def streamerFull : WebRTCStreamer :=
  { peerConnection := some (newPeerConnection 0),
    localStream := some { quality := .low, hasAudioTrack := true },
    dataChannel := some { isOpen := true },
    currentQuality := .low, hasAudio := true, signalingInterval := true }

/-- A fully initialized receiver for the cleanup witnesses. -/
def receiverFull : WebRTCReceiver :=
  { peerConnection := some (newPeerConnection 0),
    dataChannel := some { isOpen := true },
    remoteStreamSet := true, currentQuality := .high, signalingInterval := true,
    pendingIceCandidates := ["x"], remoteDescriptionSet := true,
    processedMessages := [(MsgType.offer, 1, some "op")], nextPcId := 1 }

/-- Claim C5 witness: two cleanups of fully initialized sessions release each
handle exactly once. -/
theorem c5_cleanup_idempotence_witness :
    1 ≤ 2 ∧
    (streamerCleanupK 2 streamerFull).2.filter Event.isRelease =
      (streamerCleanup streamerFull).2.filter Event.isRelease ∧
    countTracksStopped (streamerCleanup streamerFull).2 =
      (if streamerFull.localStream.isSome then 1 else 0) :=
  ⟨by decide,
   (c5_cleanup_idempotence streamerFull receiverFull 2 (by decide)).1,
   (c5_cleanup_idempotence streamerFull receiverFull 2 (by decide)).2.1⟩

/-- Position of each event category in the streamer cleanup order the source
exhibits: polling stop, capture tracks, data channel, peer connection. -/
def streamerCleanupRank : Event → Nat
  | .pollingStopped => 0
  | .tracksStopped _ => 1
  | .dataChannelClosed => 2
  | .peerConnectionClosed _ => 3
  | _ => 4

/-- Position of each event category in the receiver cleanup order the source
exhibits: polling stop, data channel, peer connection. -/
def receiverCleanupRank : Event → Nat
  | .pollingStopped => 0
  | .dataChannelClosed => 1
  | .peerConnectionClosed _ => 2
  | _ => 3

/-- Claim C6 (amended): in every cleanup the polling loop is stopped first;
the receiver then releases the data channel and then the peer connection,
but the streamer releases the capture tracks BEFORE the data channel and the
peer connection (tracks, then data channel, then peer connection), not
after them as the claim states. -/
theorem c6_cleanup_order :
    (∀ s : WebRTCStreamer,
      ((streamerCleanup s).2).Pairwise
        (fun a b => streamerCleanupRank a < streamerCleanupRank b)) ∧
    (∀ r : WebRTCReceiver,
      ((receiverCleanup r).2).Pairwise
        (fun a b => receiverCleanupRank a < receiverCleanupRank b)) ∧
    (∀ r : WebRTCReceiver, countTracksStopped (receiverCleanup r).2 = 0) := by
  refine ⟨?_, ?_, ?_⟩
  · intro s
    obtain ⟨opc, ols, odc, cq, ha, si⟩ := s
    cases si <;> rcases ols with _ | ms <;> rcases odc with _ | dc <;>
      rcases opc with _ | pc <;>
      simp [streamerCleanup, List.pairwise_cons, streamerCleanupRank]
  · intro r
    obtain ⟨rpc, rdc, rss, rcq, rsi, rpen, rrds, rpm, rnp⟩ := r
    cases rsi <;> rcases rdc with _ | dc <;> rcases rpc with _ | pc <;>
      simp [receiverCleanup, List.pairwise_cons, receiverCleanupRank]
  · intro r
    obtain ⟨rpc, rdc, rss, rcq, rsi, rpen, rrds, rpm, rnp⟩ := r
    cases rsi <;> rcases rdc with _ | dc <;> rcases rpc with _ | pc <;>
      simp [receiverCleanup, countTracksStopped]

/-- Claim C6 counterexample: on a fully initialized streamer the cleanup
event order is polling stop, capture tracks, data channel, peer connection —
not the claimed polling stop, data channel, peer connection, capture
tracks. -/
theorem c6_cleanup_order_counterexample :
    (streamerCleanup streamerFull).2 =
      [Event.pollingStopped,
       Event.tracksStopped { quality := .low, hasAudioTrack := true },
       Event.dataChannelClosed,
       Event.peerConnectionClosed 0] ∧
    (streamerCleanup streamerFull).2 ≠
      [Event.pollingStopped,
       Event.dataChannelClosed,
       Event.peerConnectionClosed 0,
       Event.tracksStopped { quality := .low, hasAudioTrack := true }] := by
  constructor
  · rfl
  · decide

/-- Any error thrown inside the changeQuality try-block leaves localStream
and currentQuality untouched, keeps the peer connection, and has emitted no
release action (the old tracks are stopped only after every step
succeeded). -/
theorem changeQualityTry_error_spec (env : MediaEnv) (s : WebRTCStreamer) (q : QualityLevel)
    (e : String) (sErr : WebRTCStreamer) (evs : List Event)
    (h : changeQualityTry env s q = .error (e, sErr, evs)) :
    sErr.localStream = s.localStream ∧ sErr.currentQuality = s.currentQuality ∧
    sErr.peerConnection.isSome = s.peerConnection.isSome ∧
    evs.filter Event.isRelease = [] := by
  rw [changeQualityTry] at h
  rcases hg : getMediaStream env q with eg | ms <;> rw [hg] at h
  · simp only [Except.error.injEq, Prod.mk.injEq] at h
    obtain ⟨-, rfl, rfl⟩ := h
    exact ⟨rfl, rfl, rfl, rfl⟩
  · by_cases hau : ms.hasAudioTrack = s.hasAudio <;>
      simp only [] at h <;>
      split at h <;> split at h <;> (try split at h) <;>
      simp_all [Event.isRelease, replaceVideoTrack, replaceAudioTrack] <;>
      (obtain ⟨-, rfl, rfl⟩ := h; simp [Event.isRelease])

/-- Claim C8 (amended): when a quality change fails (capture acquisition or
track replacement throws inside the try-block), the previous capture tracks
are kept active (no tracksStopped action, localStream unchanged),
current_quality is unchanged, and the connection stays open (the
peer-connection handle is kept and never closed); however the failure is
only logged — the catch block swallows the error, so nothing is reported to
the awaiting caller (thrown = none). -/
theorem c8_quality_change_failure (env : MediaEnv) (s : WebRTCStreamer) (q : QualityLevel)
    (e : String) (sErr : WebRTCStreamer) (evs : List Event)
    (hq : q ≠ s.currentQuality)
    (hfail : changeQualityTry env s q = .error (e, sErr, evs)) :
    (changeQuality env s q).thrown = none ∧
    (changeQuality env s q).state.localStream = s.localStream ∧
    (changeQuality env s q).state.currentQuality = s.currentQuality ∧
    (changeQuality env s q).state.peerConnection.isSome = s.peerConnection.isSome ∧
    (changeQuality env s q).events.filter Event.isRelease = [] ∧
    Event.logged e ∈ (changeQuality env s q).events := by
  have hspec := changeQualityTry_error_spec env s q e sErr evs hfail
  have hcq : changeQuality env s q =
      { state := sErr, events := evs ++ [Event.logged e], thrown := none } := by
    simp [changeQuality, hq, hfail]
  rw [hcq]
  refine ⟨rfl, hspec.1, hspec.2.1, hspec.2.2.1, ?_, by simp⟩
  simp [List.filter_append, hspec.2.2.2, Event.isRelease]

/-- An environment with no capture devices at all. -/
def envNoCamera : MediaEnv := { videoOk := false, audioOk := false }

/-- Claim C8 counterexample: on a connected streamer whose quality change
fails (no camera), the try-block throws, the state is kept — but the
operation resolves normally for its caller: thrown = none and the only trace
of the failure is a console log, contradicting the claim that the failure is
reported to the caller. -/
theorem c8_quality_change_failure_counterexample :
    changeQualityTry envNoCamera streamerFull .high =
      .error ("Camera access denied or not available", streamerFull, []) ∧
    (changeQuality envNoCamera streamerFull .high).thrown = none ∧
    (changeQuality envNoCamera streamerFull .high).events =
      [Event.logged "Camera access denied or not available"] ∧
    (changeQuality envNoCamera streamerFull .high).state = streamerFull := by
  exact ⟨rfl, rfl, rfl, rfl⟩

/-- Claim C8 witness on the no-camera failure. -/
theorem c8_quality_change_failure_witness :
    QualityLevel.high ≠ streamerFull.currentQuality ∧
    (changeQuality envNoCamera streamerFull .high).thrown = none ∧
    (changeQuality envNoCamera streamerFull .high).state.localStream =
      streamerFull.localStream :=
  ⟨by decide,
   (c8_quality_change_failure envNoCamera streamerFull .high
      "Camera access denied or not available" streamerFull [] (by decide) rfl).1,
   (c8_quality_change_failure envNoCamera streamerFull .high
      "Camera access denied or not available" streamerFull [] (by decide) rfl).2.1⟩

/-- The optional data-channel copy of a quality request is not a published
envelope. -/
theorem qualityRequestsOf_dcPart (odc : Option DataChannel) (q : QualityLevel) :
    qualityRequestsOf
      (match odc with
       | some dc => if dc.isOpen then [Event.dataChannelSent q] else []
       | none => []) = [] := by
  rcases odc with _ | dc
  · rfl
  · cases hdc : dc.isOpen <;> simp [qualityRequestsOf]

/-- qualityRequestsOf distributes over event concatenation. -/
theorem qualityRequestsOf_append (a b : List Event) :
    qualityRequestsOf (a ++ b) = qualityRequestsOf a ++ qualityRequestsOf b := by
  simp [qualityRequestsOf, List.filterMap_append]

/-- requestQualityChange never changes the session state. -/
theorem requestQualityChange_state (rid oid : String) (now : Nat) (s : WebRTCReceiver)
    (q : QualityLevel) : (requestQualityChange rid oid now s q).1 = s := by
  by_cases hq : q = s.currentQuality <;> simp [requestQualityChange, hq]

/-- A quality request publishes the requested level exactly when it differs
from the last confirmed quality. -/
theorem qualityRequestsOf_request (rid oid : String) (now : Nat) (s : WebRTCReceiver)
    (q : QualityLevel) :
    qualityRequestsOf (requestQualityChange rid oid now s q).2 =
      (if q = s.currentQuality then [] else [q]) := by
  by_cases hq : q = s.currentQuality
  · simp [requestQualityChange, hq, qualityRequestsOf]
  · simp only [requestQualityChange, if_neg hq]
    rw [qualityRequestsOf_append, qualityRequestsOf_dcPart]
    simp [qualityRequestsOf, qualityRequestMsg, hq]

/-- A confirmation notification is not a published request. -/
theorem qualityRequestsOf_notified (q : QualityLevel) (evs : List Event) :
    qualityRequestsOf (Event.qualityChangedNotified q :: evs) = qualityRequestsOf evs := by
  simp [qualityRequestsOf]

/-- Claim C9 (amended): a focus transition issues a quality request exactly
when the target level differs from the receiver's current quality, which
only a streamer confirmation over the data channel updates.  Hence
false→true→false issues High then Low only if the confirmation of High
arrives before the unfocus transition; with no confirmation in between, the
Low request is suppressed (see the counterexample) and only one request is
issued. -/
theorem c9_focus_adaptation (rid oid : String) (now : Nat) (s : WebRTCReceiver)
    (hq : s.currentQuality = .low) :
    qualityRequestsOf (runFocusTrace rid oid now s
      [.setFocus true, .confirmQuality .high, .setFocus false]).2 = [.high, .low] ∧
    qualityRequestsOf (runFocusTrace rid oid now s
      [.setFocus true, .setFocus false]).2 = [.high] ∧
    (∀ q, qualityRequestsOf (requestQualityChange rid oid now s q).2 =
      (if q = s.currentQuality then [] else [q])) := by
  refine ⟨?_, ?_, fun q => qualityRequestsOf_request rid oid now s q⟩
  · simp [runFocusTrace, applyFocusEvent, requestFocus, releaseFocus,
          onDataChannelQualityChange, qualityRequestsOf_append,
          requestQualityChange_state, qualityRequestsOf_request,
          qualityRequestsOf_notified, hq]
  · simp [runFocusTrace, applyFocusEvent, requestFocus, releaseFocus,
          qualityRequestsOf_append, requestQualityChange_state,
          qualityRequestsOf_request, hq]

/-- Claim C9 counterexample: on a fresh receiver (current quality Low), the
focus trace false→true→false with no confirmation from the streamer in
between issues only one request (High) — not the claimed two — because the
unfocus request for Low is suppressed by the currentQuality guard, which is
still Low. -/
theorem c9_focus_adaptation_counterexample :
    qualityRequestsOf (runFocusTrace "robot1" "op1" 0 receiverNew
      [.setFocus true, .setFocus false]).2 = [QualityLevel.high] ∧
    ([QualityLevel.high] : List QualityLevel) ≠ [QualityLevel.high, QualityLevel.low] := by
  constructor
  · rfl
  · decide

/-- Claim C9 witness: with the confirmation arriving in between, exactly two
requests (High then Low) are issued. -/
theorem c9_focus_adaptation_witness :
    receiverNew.currentQuality = .low ∧
    qualityRequestsOf (runFocusTrace "robot1" "op1" 0 receiverNew
      [.setFocus true, .confirmQuality .high, .setFocus false]).2 =
      [QualityLevel.high, QualityLevel.low] :=
  ⟨rfl, (c9_focus_adaptation "robot1" "op1" 0 receiverNew rfl).1⟩
